import Mathlib

/-!
Shallow embedding of the qserv replication control plane
(src/core/modules/replica): the Request and Job state machines
(Request.cc, Job.cc), the CreateReplicaJob fan-in aggregation
(CreateReplicaJob.cc), the MessengerConnector queueing and failure
handling (MessengerConnector.cc), the worker-side duplicate detection
(WorkerProcessor.cc), the DeleteRequest response analysis
(DeleteRequest.cc), the ChunkLocker table (ChunkLocker.h) and the
worker-side WorkerRequest status machine (WorkerRequest.cc).

State that lives behind a mutex in the C++ code is modelled as explicit
state passing; the mutex serializes every entry point, so each C++
critical section becomes one pure function, and the double-checked
FINISHED guard collapses to a single check. Asynchronous I/O operations
are abstracted: a handler that merely posts an asynchronous operation is
the identity on the connector state, and the completion handlers take the
resulting error code as an argument.
-/

namespace Replica

/-- Request.h Request::State: CREATED, IN_PROGRESS, FINISHED. -/
inductive RequestState
  | CREATED
  | IN_PROGRESS
  | FINISHED
deriving DecidableEq, Repr

/-- Request.h Request::ExtendedState. -/
inductive RequestExtendedState
  | NONE
  | SUCCESS
  | CLIENT_ERROR
  | SERVER_BAD
  | SERVER_ERROR
  | SERVER_QUEUED
  | SERVER_IN_PROGRESS
  | SERVER_IS_CANCELLING
  | SERVER_CANCELLED
  | TIMEOUT_EXPIRED
  | CANCELLED
deriving DecidableEq, Repr

/-- Request.cc: the controller-side Request, reduced to the fields the
claims are about. notifyCount counts invocations of notify(), the
completion callback dispatch at the end of finish(). -/
structure Request where
  state : RequestState
  extendedState : RequestExtendedState
  notifyCount : Nat
deriving DecidableEq, Repr

/-- Request.cc Request::finish (lines 240-270): ignored when the state is
already FINISHED; otherwise the timestamp is updated, the state becomes
(FINISHED, extendedState) via setState, the expiration timer is stopped,
finishImpl runs, and notify() dispatches the completion callback. -/
def Request.finish (r : Request) (extendedState : RequestExtendedState) : Request :=
  if r.state = .FINISHED then r
  else { r with
         state := .FINISHED
         extendedState := extendedState
         notifyCount := r.notifyCount + 1 }

/-- Request.cc Request::cancel (lines 221-238): double-checked FINISHED
guard (collapsed here, see the module comment), then finish(CANCELLED). -/
def Request.cancel (r : Request) : Request :=
  if r.state = .FINISHED then r
  else r.finish .CANCELLED

/-- Request.cc Request::expired (lines 197-219): an aborted timer is
ignored; otherwise the double-checked FINISHED guard, then
finish(TIMEOUT_EXPIRED). -/
def Request.expired (r : Request) (aborted : Bool) : Request :=
  if aborted then r
  else if r.state = .FINISHED then r
  else r.finish .TIMEOUT_EXPIRED

/-- One terminal-triggering event racing on a Request: a completion
(finish with some extended state), a client cancel, or the expiration
timer firing (not aborted). -/
inductive RequestEvent
  | finishEv (extendedState : RequestExtendedState)
  | cancelEv
  | expiredEv
deriving DecidableEq, Repr

/-- Dispatch of one terminal-triggering event on a Request. -/
def Request.applyEvent (r : Request) : RequestEvent → Request
  | .finishEv extendedState => r.finish extendedState
  | .cancelEv => r.cancel
  | .expiredEv => r.expired false

/-- A serialized race of terminal-triggering events on a Request: the
mutex in Request.cc serializes the contenders, so a race is a sequence. -/
def Request.applyEvents (r : Request) : List RequestEvent → Request
  | [] => r
  | e :: es => (r.applyEvent e).applyEvents es

/-- Job.h Job::State: CREATED, IN_PROGRESS, FINISHED. -/
inductive JobState
  | CREATED
  | IN_PROGRESS
  | FINISHED
deriving DecidableEq, Repr

/-- Job.h Job::ExtendedState. -/
inductive JobExtendedState
  | NONE
  | SUCCESS
  | CONFIG_ERROR
  | FAILED
  | QSERV_FAILED
  | QSERV_CHUNK_IN_USE
  | TIMEOUT_EXPIRED
  | CANCELLED
deriving DecidableEq, Repr

/-- Job.cc: the controller-side Job, reduced to the fields the claims are
about. notifyCount counts invocations of notify(); cancelImplCount counts
invocations of the subclass cancelImpl cleanup. -/
structure Job where
  state : JobState
  extendedState : JobExtendedState
  notifyCount : Nat
  cancelImplCount : Nat
deriving DecidableEq, Repr

/-- Job.cc Job::finish (lines 197-228): ignored when the state is already
FINISHED; otherwise setState(FINISHED, newExtendedState), cancelImpl for
any non-SUCCESS outcome, persistence, timer shutdown, and notify(). -/
def Job.finish (j : Job) (newExtendedState : JobExtendedState) : Job :=
  if j.state = .FINISHED then j
  else
    let j := { j with state := .FINISHED, extendedState := newExtendedState }
    let j := if newExtendedState ≠ .SUCCESS then
               { j with cancelImplCount := j.cancelImplCount + 1 }
             else j
    { j with notifyCount := j.notifyCount + 1 }

/-- Job.cc Job::cancel (lines 178-195): double-checked FINISHED guard,
then finish(CANCELLED). -/
def Job.cancel (j : Job) : Job :=
  if j.state = .FINISHED then j
  else j.finish .CANCELLED

/-- Job.cc Job::expired (lines 410-431): an aborted timer is ignored;
otherwise the double-checked FINISHED guard, then
finish(TIMEOUT_EXPIRED). -/
def Job.expired (j : Job) (aborted : Bool) : Job :=
  if aborted then j
  else if j.state = .FINISHED then j
  else j.finish .TIMEOUT_EXPIRED

/-- One terminal-triggering event racing on a Job. -/
inductive JobEvent
  | finishEv (extendedState : JobExtendedState)
  | cancelEv
  | expiredEv
deriving DecidableEq, Repr

/-- Dispatch of one terminal-triggering event on a Job. -/
def Job.applyEvent (j : Job) : JobEvent → Job
  | .finishEv extendedState => j.finish extendedState
  | .cancelEv => j.cancel
  | .expiredEv => j.expired false

/-- A serialized race of terminal-triggering events on a Job. -/
def Job.applyEvents (j : Job) : List JobEvent → Job
  | [] => j
  | e :: es => (j.applyEvent e).applyEvents es

/-- CreateReplicaJob.cc: a child request as seen by the fan-in logic of
the parent job, reduced to its state pair. -/
structure ChildRequest where
  state : RequestState
  extendedState : RequestExtendedState
deriving DecidableEq, Repr

/-- CreateReplicaJob.cc countRequestStates loop body (lines 57-64):
counts the FINISHED children and, among those, the ones whose extended
state is SUCCESS. Returns (numFinished, numSuccess). -/
def countFinishedSuccess : List ChildRequest → Nat × Nat
  | [] => (0, 0)
  | ptr :: rest =>
    let fs := countFinishedSuccess rest
    if ptr.state = .FINISHED then
      if ptr.extendedState = .SUCCESS then (fs.1 + 1, fs.2 + 1)
      else (fs.1 + 1, fs.2)
    else fs

/-- CreateReplicaJob.cc countRequestStates (lines 45-65): numLaunched is
the collection size, numFinished and numSuccess are counted over the
collection. Returns (numLaunched, numFinished, numSuccess). -/
def countRequestStates (collection : List ChildRequest) : Nat × Nat × Nat :=
  (collection.length,
   (countFinishedSuccess collection).1,
   (countFinishedSuccess collection).2)

/-- CreateReplicaJob.cc onRequestFinish fan-in decision (lines 324-360):
once numFinished = numLaunched the job terminates with SUCCESS when
numSuccess = numLaunched and with FAILED otherwise; before that there is
no terminal transition (none). -/
def onRequestFinishOutcome (requests : List ChildRequest) : Option JobExtendedState :=
  let counts := countRequestStates requests
  if counts.2.1 = counts.1 then
    if counts.2.2 = counts.1 then some .SUCCESS else some .FAILED
  else none

/-- MessengerConnector.h MessengerConnector::State. -/
inductive ConnectorState
  | STATE_INITIAL
  | STATE_CONNECTING
  | STATE_COMMUNICATING
deriving DecidableEq, Repr

/-- MessengerConnector.h MessageWrapperBase, reduced to the request id and
the success flag (false at construction, set by setSuccess on a complete
response exchange and reported to the owner by parseAndNotify). -/
structure MessageWrapper where
  id : String
  success : Bool
deriving DecidableEq, Repr

/-- Boost.Asio completion codes as the handlers in MessengerConnector.cc
distinguish them: success, operation_aborted (a cancelled operation), or
any other socket error. -/
inductive ErrorCode
  | ok
  | operation_aborted
  | fail
deriving DecidableEq, Repr

/-- MessengerConnector.cc: the per-worker connector state. requests is the
FIFO queue _requests (front = head); currentRequest is the at-most-one
in-flight request _currentRequest; timerArmed records a pending
retry-backoff timer armed by waitBeforeRestart; notified is the log of
parseAndNotify calls, as (request id, success flag) pairs. -/
structure MessengerConnector where
  state : ConnectorState
  requests : List MessageWrapper
  currentRequest : Option MessageWrapper
  timerArmed : Bool
  notified : List (String × Bool)
deriving DecidableEq, Repr

/-- MessengerConnector.cc find (lines 647-656): looks an id up in the
_requests queue only; the in-flight _currentRequest is not consulted. -/
def MessengerConnector.find (c : MessengerConnector) (id : String) :
    Option MessageWrapper :=
  c.requests.find? (fun ptr => ptr.id == id)

/-- MessengerConnector.cc resolve (lines 230-251): only acts in
STATE_INITIAL; posts the asynchronous resolution and moves the connector
to STATE_CONNECTING. -/
def MessengerConnector.resolve (c : MessengerConnector) : MessengerConnector :=
  if c.state = .STATE_INITIAL then { c with state := .STATE_CONNECTING } else c

/-- MessengerConnector.cc restart (lines 201-228): outside STATE_INITIAL,
cancels the outstanding I/O and the timer and drops to STATE_INITIAL (the
queue and the current request are untouched); then resolves again. -/
def MessengerConnector.restart (c : MessengerConnector) : MessengerConnector :=
  if c.state = .STATE_INITIAL then c.resolve
  else MessengerConnector.resolve { c with state := .STATE_INITIAL, timerArmed := false }

/-- MessengerConnector.cc sendRequest (lines 337-368): does nothing while
a request is in flight or while the queue is empty; otherwise pops the
front of the queue, makes it the current request and posts the
asynchronous write. -/
def MessengerConnector.sendRequest (c : MessengerConnector) : MessengerConnector :=
  if c.currentRequest.isSome then c
  else
    match c.requests with
    | [] => c
    | r :: rest => { c with currentRequest := some r, requests := rest }

/-- MessengerConnector.cc sendImpl (lines 165-199): a logic error when the
id is already registered per find (so only the queued requests are
checked); otherwise the wrapper is appended to the queue and, depending on
the connector state, resolution or transmission is initiated. -/
def MessengerConnector.sendImpl (c : MessengerConnector) (ptr : MessageWrapper) :
    Except String MessengerConnector :=
  if (c.find ptr.id).isSome then
    .error "MessengerConnector::sendImpl  the request is alrady registered"
  else
    let c := { c with requests := c.requests ++ [ptr] }
    match c.state with
    | .STATE_INITIAL => .ok c.resolve
    | .STATE_CONNECTING => .ok c
    | .STATE_COMMUNICATING => .ok c.sendRequest

/-- MessengerConnector.cc cancel (lines 133-154): removes a queued request
with the id; when the id is the one currently in flight, drops the current
request and, if communicating, tears the connection down via restart. -/
def MessengerConnector.cancel (c : MessengerConnector) (id : String) :
    MessengerConnector :=
  let c := { c with requests := c.requests.filter (fun ptr => ptr.id != id) }
  match c.currentRequest with
  | some r =>
    if r.id = id then
      let c := { c with currentRequest := none }
      if c.state = .STATE_COMMUNICATING then c.restart else c
    else c
  | none => c

/-- MessengerConnector.cc waitBeforeRestart (lines 306-321): arms the
fixed-backoff retry timer (retryTimeoutSec); no other state change. -/
def MessengerConnector.waitBeforeRestart (c : MessengerConnector) :
    MessengerConnector :=
  { c with timerArmed := true }

/-- MessengerConnector.cc awakenForRestart (lines 323-335): an aborted
timer is ignored; the restart fires only when still STATE_CONNECTING. -/
def MessengerConnector.awakenForRestart (c : MessengerConnector) (ec : ErrorCode) :
    MessengerConnector :=
  if ec = .operation_aborted then c
  else if c.state ≠ .STATE_CONNECTING then c
  else c.restart

/-- MessengerConnector.cc connect (lines 270-286): posts the asynchronous
connect; no synchronous state change. -/
def MessengerConnector.connect (c : MessengerConnector) : MessengerConnector := c

/-- MessengerConnector.cc resolved (lines 253-268): aborted resolutions
are ignored; an error arms the backoff timer via waitBeforeRestart;
success proceeds to connect. -/
def MessengerConnector.resolved (c : MessengerConnector) (ec : ErrorCode) :
    MessengerConnector :=
  if ec = .operation_aborted then c
  else if ec ≠ .ok then c.waitBeforeRestart
  else c.connect

/-- MessengerConnector.cc connected (lines 288-304): aborted connects are
ignored; an error arms the backoff timer via waitBeforeRestart; success
moves to STATE_COMMUNICATING and starts transmitting. -/
def MessengerConnector.connected (c : MessengerConnector) (ec : ErrorCode) :
    MessengerConnector :=
  if ec = .operation_aborted then c
  else if ec ≠ .ok then c.waitBeforeRestart
  else MessengerConnector.sendRequest { c with state := .STATE_COMMUNICATING }

/-- MessengerConnector.cc receiveResponse (lines 415-445): posts the
asynchronous read of the length frame; no synchronous state change. -/
def MessengerConnector.receiveResponse (c : MessengerConnector) : MessengerConnector := c

/-- MessengerConnector.cc requestSent (lines 370-413): an aborted write
restarts (the cancellation path already removed the current request); a
write error on a still-valid current request pushes it back to the front
of the queue to be served first and restarts; a successful write goes on
to await the response. -/
def MessengerConnector.requestSent (c : MessengerConnector) (ec : ErrorCode) :
    MessengerConnector :=
  if ec = .operation_aborted then c.restart
  else
    match c.currentRequest with
    | some r =>
      if ec ≠ .ok then
        MessengerConnector.restart
          { c with requests := r :: c.requests, currentRequest := none }
      else
        c.receiveResponse
    | none => c

/-- MessengerConnector.cc responseReceived (lines 447-566): an aborted
read restarts; otherwise the in-flight request, if any, is removed from
_currentRequest unconditionally (std::swap into request2notify) and
notified at the end via parseAndNotify, with setSuccess(true) only when
the frame, the verified header and the body are all read back
successfully; every read failure restarts the connection. syncReadFail
abstracts the combined outcome of the three synchronous reads
(syncReadVerifyHeader, syncReadFrame, syncReadMessageImpl). -/
def MessengerConnector.responseReceived (c : MessengerConnector) (ec : ErrorCode)
    (syncReadFail : Bool) : MessengerConnector :=
  if ec = .operation_aborted then c.restart
  else
    match c.currentRequest with
    | some r =>
      let c := { c with currentRequest := none }
      if ec ≠ .ok then
        MessengerConnector.restart
          { c with notified := c.notified ++ [(r.id, r.success)] }
      else if syncReadFail then
        MessengerConnector.restart
          { c with notified := c.notified ++ [(r.id, r.success)] }
      else
        MessengerConnector.sendRequest
          { c with notified := c.notified ++ [(r.id, true)] }
    | none =>
      if ec ≠ .ok then c.restart else c.sendRequest

/-- Concrete connector used by the C4 counterexample: communicating, empty
queue, one request in flight. -/
def c4connector : MessengerConnector :=
  { state := .STATE_COMMUNICATING
    requests := []
    currentRequest := some { id := "r1", success := false }
    timerArmed := false
    notified := [] }

/-- Concrete connector used by the C7 counterexample: communicating, empty
queue, the request with id a in flight. -/
def c7connector : MessengerConnector :=
  { state := .STATE_COMMUNICATING
    requests := []
    currentRequest := some { id := "a", success := false }
    timerArmed := false
    notified := [] }

/-- Modelled from the spec: the wire-protocol status vocabulary
(proto::ReplicationStatus) is generated from a protobuf definition that is
not under src/; spec section 6 fixes the vocabulary as QUEUED,
IN_PROGRESS, IS_CANCELLING, CANCELLED, SUCCESS, BAD, FAILED. -/
inductive ReplicationStatus
  | QUEUED
  | IN_PROGRESS
  | IS_CANCELLING
  | CANCELLED
  | SUCCESS
  | BAD
  | FAILED
deriving DecidableEq, Repr

/-- Modelled from the spec: the extended status vocabulary
(proto::ReplicationStatusExt and the mirrored
replica::ExtendedCompletionStatus, related one-to-one by translate) is
generated from a protobuf definition that is not under src/; the values
are the ones the covered code mentions: NONE, INVALID_PARAM and
DUPLICATE. -/
inductive ReplicationStatusExt
  | NONE
  | INVALID_PARAM
  | DUPLICATE
deriving DecidableEq, Repr

/-- WorkerRequest.h concrete subclass discriminator, as tested by the
dynamic_pointer_cast chain in WorkerProcessor.cc ifDuplicateRequest. -/
inductive WorkerRequestKind
  | replication
  | deletion
  | findOne
  | findAll
  | echo
deriving DecidableEq, Repr

/-- WorkerRequest.h WorkerRequest::CompletionStatus. -/
inductive CompletionStatus
  | STATUS_NONE
  | STATUS_IN_PROGRESS
  | STATUS_IS_CANCELLING
  | STATUS_CANCELLED
  | STATUS_SUCCEEDED
  | STATUS_FAILED
deriving DecidableEq, Repr

/-- WorkerRequest.cc: a worker-side request, reduced to the fields the
claims are about. startTime and finishTime are the Performance
timestamps. -/
structure WorkerRequest where
  kind : WorkerRequestKind
  id : String
  priority : Int
  database : String
  chunk : Nat
  status : CompletionStatus
  extendedStatus : ReplicationStatusExt
  startTime : Nat
  finishTime : Nat
deriving DecidableEq, Repr

/-- WorkerRequest.cc setStatus (lines 220-267): updates the performance
timestamps for the target status (STATUS_CANCELLED falls through to the
finish-time update after backfilling a missing start time), then writes
the extended status before the status. now stands for
PerformanceUtils::now(). -/
def WorkerRequest.setStatus (r : WorkerRequest) (status : CompletionStatus)
    (extendedStatus : ReplicationStatusExt) (now : Nat) : WorkerRequest :=
  let r :=
    match status with
    | .STATUS_NONE => { r with startTime := 0, finishTime := 0 }
    | .STATUS_IN_PROGRESS => { r with startTime := now, finishTime := 0 }
    | .STATUS_IS_CANCELLING => r
    | .STATUS_CANCELLED =>
      let r := if r.startTime = 0 then { r with startTime := now } else r
      { r with finishTime := now }
    | .STATUS_SUCCEEDED => { r with finishTime := now }
    | .STATUS_FAILED => { r with finishTime := now }
  { r with extendedStatus := extendedStatus, status := status }

/-- WorkerRequest.cc cancel (lines 161-184): STATUS_NONE and
STATUS_CANCELLED become STATUS_CANCELLED; STATUS_IN_PROGRESS and
STATUS_IS_CANCELLING become STATUS_IS_CANCELLING; STATUS_SUCCEEDED and
STATUS_FAILED are left untouched. The switch covers every status, so the
method never throws. The extended status argument of setStatus is left at
its declared default of EXT_STATUS_NONE (the default lives in
WorkerRequest.h, which is not under src/). -/
def WorkerRequest.cancel (r : WorkerRequest) (now : Nat) : WorkerRequest :=
  match r.status with
  | .STATUS_NONE | .STATUS_CANCELLED => r.setStatus .STATUS_CANCELLED .NONE now
  | .STATUS_IN_PROGRESS | .STATUS_IS_CANCELLING =>
    r.setStatus .STATUS_IS_CANCELLING .NONE now
  | .STATUS_SUCCEEDED | .STATUS_FAILED => r

/-- WorkerProcessor.cc ifDuplicateRequest (lines 51-79): a queued request
collides with an incoming one when it is a replication or a deletion
request on the same (database, chunk) pair; requests of any other kind
never collide. -/
def ifDuplicateRequest (p : WorkerRequest) (database : String) (chunk : Nat) : Bool :=
  match p.kind with
  | .replication => p.database == database && p.chunk == chunk
  | .deletion => p.database == database && p.chunk == chunk
  | _ => false

/-- WorkerProcessor.h response fields the claims are about: the status
pair and the optional duplicate_request_id. -/
structure ReplicationResponse where
  status : ReplicationStatus
  statusExt : ReplicationStatusExt
  duplicateRequestId : Option String
deriving DecidableEq, Repr

/-- WorkerProcessor.h: the three worker-side queues. -/
structure WorkerProcessor where
  newRequests : List WorkerRequest
  inProgressRequests : List WorkerRequest
  finishedRequests : List WorkerRequest
deriving DecidableEq, Repr

/-- WorkerProcessor.cc enqueueForReplication (lines 199-250): scans the
new queue and then the in-progress queue for a colliding (database,
chunk); on a hit the incoming request is rejected with BAD / DUPLICATE
carrying the colliding request id, the queues untouched; otherwise a new
replication request is created and admitted to the new queue with
QUEUED / NONE. -/
def WorkerProcessor.enqueueForReplication (w : WorkerProcessor) (id : String)
    (priority : Int) (database : String) (chunk : Nat) :
    WorkerProcessor × ReplicationResponse :=
  match (w.newRequests ++ w.inProgressRequests).find?
      (fun p => ifDuplicateRequest p database chunk) with
  | some p =>
    (w, { status := .BAD, statusExt := .DUPLICATE, duplicateRequestId := some p.id })
  | none =>
    let ptr : WorkerRequest :=
      { kind := .replication, id := id, priority := priority, database := database
        chunk := chunk, status := .STATUS_NONE, extendedStatus := .NONE
        startTime := 0, finishTime := 0 }
    ({ w with newRequests := w.newRequests ++ [ptr] },
     { status := .QUEUED, statusExt := .NONE, duplicateRequestId := none })

/-- WorkerProcessor.cc enqueueForDeletion (lines 252-300): same duplicate
scan as enqueueForReplication, admitting a deletion request otherwise. -/
def WorkerProcessor.enqueueForDeletion (w : WorkerProcessor) (id : String)
    (priority : Int) (database : String) (chunk : Nat) :
    WorkerProcessor × ReplicationResponse :=
  match (w.newRequests ++ w.inProgressRequests).find?
      (fun p => ifDuplicateRequest p database chunk) with
  | some p =>
    (w, { status := .BAD, statusExt := .DUPLICATE, duplicateRequestId := some p.id })
  | none =>
    let ptr : WorkerRequest :=
      { kind := .deletion, id := id, priority := priority, database := database
        chunk := chunk, status := .STATUS_NONE, extendedStatus := .NONE
        startTime := 0, finishTime := 0 }
    ({ w with newRequests := w.newRequests ++ [ptr] },
     { status := .QUEUED, statusExt := .NONE, duplicateRequestId := none })

/-- DeleteRequest.cc: the controller-side DeleteRequest, reduced to the
fields analyze reads and writes. -/
structure DeleteRequest where
  state : RequestState
  extendedState : RequestExtendedState
  keepTracking : Bool
  allowDuplicate : Bool
  extendedServerStatus : ReplicationStatusExt
  duplicateRequestId : String
deriving DecidableEq, Repr

/-- DeleteRequest.cc: the response message fields analyze reads. -/
structure DeleteResponse where
  status : ReplicationStatus
  statusExt : ReplicationStatusExt
  duplicateRequestId : String
deriving DecidableEq, Repr

/-- Action taken by DeleteRequest::analyze: the double-checked FINISHED
guard yields noop; finished names the finish(extendedState) terminal
transition; wait re-arms the poll timer. -/
inductive AnalyzeAction
  | noop
  | finished (extendedState : RequestExtendedState)
  | wait
deriving DecidableEq, Repr

/-- DeleteRequest.cc analyze (lines 203-310): the double-checked FINISHED
guard yields a no-op; a failed wire exchange finishes with CLIENT_ERROR;
otherwise the server-reported extended status is recorded and the server
status is dispatched: SUCCESS finishes with SUCCESS; QUEUED, IN_PROGRESS
and IS_CANCELLING re-arm the poll timer under keepTracking and otherwise
finish with the matching SERVER_ state; BAD with extended status
DUPLICATE records the duplicate request id and keeps polling when both
allowDuplicate and keepTracking are set, otherwise finishes with
SERVER_BAD; FAILED finishes with SERVER_ERROR; CANCELLED finishes with
SERVER_CANCELLED. The C++ default branch throwing a logic error is only
reachable for an integer outside the protocol enum and corresponds to no
constructor of ReplicationStatus here. -/
def DeleteRequest.analyze (r : DeleteRequest) (success : Bool)
    (message : DeleteResponse) : DeleteRequest × AnalyzeAction :=
  if r.state = .FINISHED then (r, .noop)
  else if success = false then (r, .finished .CLIENT_ERROR)
  else
    let r := { r with extendedServerStatus := message.statusExt }
    match message.status with
    | .SUCCESS => (r, .finished .SUCCESS)
    | .QUEUED =>
      if r.keepTracking then (r, .wait) else (r, .finished .SERVER_QUEUED)
    | .IN_PROGRESS =>
      if r.keepTracking then (r, .wait) else (r, .finished .SERVER_IN_PROGRESS)
    | .IS_CANCELLING =>
      if r.keepTracking then (r, .wait) else (r, .finished .SERVER_IS_CANCELLING)
    | .BAD =>
      if r.extendedServerStatus = .DUPLICATE then
        let r := { r with duplicateRequestId := message.duplicateRequestId }
        if r.allowDuplicate && r.keepTracking then (r, .wait)
        else (r, .finished .SERVER_BAD)
      else (r, .finished .SERVER_BAD)
    | .FAILED => (r, .finished .SERVER_ERROR)
    | .CANCELLED => (r, .finished .SERVER_CANCELLED)

/-- Concrete request used by the C6 counterexample. -/
def c6request : DeleteRequest :=
  { state := .IN_PROGRESS, extendedState := .NONE, keepTracking := false
    allowDuplicate := false, extendedServerStatus := .NONE
    duplicateRequestId := "" }

/-- Concrete BAD response used by the C6 counterexample. -/
def c6messageBad : DeleteResponse :=
  { status := .BAD, statusExt := .NONE, duplicateRequestId := "" }

/-- ChunkLocker.h struct Chunk: a (databaseFamily, chunk number)
coordinate, comparable for use as a map key. -/
structure Chunk where
  databaseFamily : String
  number : Nat
deriving DecidableEq, Repr

/-- Modelled from the spec: ChunkLocker.cc is not under src/ (only
ChunkLocker.h with its contract comments is); the lock table is modelled
from spec section 4.1 and the header as a map from Chunk to the owning
identifier, here an association list whose construction keeps at most one
entry per chunk. -/
structure ChunkLocker where
  chunk2owner : List (Chunk × String)
deriving DecidableEq, Repr

/-- Lookup of the owner holding a chunk in the _chunk2owner table. -/
def ChunkLocker.findOwner (l : ChunkLocker) (chunk : Chunk) : Option String :=
  (l.chunk2owner.find? (fun kv => kv.1 == chunk)).map (fun kv => kv.2)

/-- Modelled from the spec: isLocked(chunk) is true when the chunk is in
the table. -/
def ChunkLocker.isLocked (l : ChunkLocker) (chunk : Chunk) : Bool :=
  (l.findOwner chunk).isSome

/-- Modelled from the spec: lock(chunk, owner) fails on an empty owner
(invalid_argument), returns true after inserting the claim when the chunk
is unlocked, returns true without modification when already locked by the
same owner (idempotent re-lock), and returns false without modification
when locked by a different owner. -/
def ChunkLocker.lock (l : ChunkLocker) (chunk : Chunk) (owner : String) :
    Except String (ChunkLocker × Bool) :=
  if owner = "" then .error "ChunkLocker::lock  the owner identifier is empty"
  else
    match l.findOwner chunk with
    | some current => .ok (l, current == owner)
    | none => .ok (⟨l.chunk2owner ++ [(chunk, owner)]⟩, true)

/-- Modelled from the spec: release(chunk) unconditionally frees the
chunk regardless of owner and reports whether it had been locked. -/
def ChunkLocker.release (l : ChunkLocker) (chunk : Chunk) : ChunkLocker × Bool :=
  (⟨l.chunk2owner.filter (fun kv => kv.1 != chunk)⟩, l.isLocked chunk)

/-- Modelled from the spec: release(owner) frees every chunk held by the
owner and returns that set; fails on an empty owner. -/
def ChunkLocker.releaseOwner (l : ChunkLocker) (owner : String) :
    Except String (ChunkLocker × List Chunk) :=
  if owner = "" then .error "ChunkLocker::release  the owner identifier is empty"
  else
    .ok (⟨l.chunk2owner.filter (fun kv => kv.2 != owner)⟩,
         (l.chunk2owner.filter (fun kv => kv.2 == owner)).map (fun kv => kv.1))

/-- One operation on the locker table, for stating that a lock holds until
one of the two release forms frees it. -/
inductive LockerOp
  | lockOp (chunk : Chunk) (owner : String)
  | releaseChunkOp (chunk : Chunk)
  | releaseOwnerOp (owner : String)
deriving DecidableEq, Repr

/-- Applies one locker operation, keeping the table unchanged when the
operation reports an error. -/
def ChunkLocker.applyOp (l : ChunkLocker) : LockerOp → ChunkLocker
  | .lockOp chunk owner =>
    match l.lock chunk owner with
    | .ok lr => lr.1
    | .error _ => l
  | .releaseChunkOp chunk => (l.release chunk).1
  | .releaseOwnerOp owner =>
    match l.releaseOwner owner with
    | .ok lr => lr.1
    | .error _ => l

/-- Applies a sequence of locker operations left to right. -/
def ChunkLocker.applyOps (l : ChunkLocker) : List LockerOp → ChunkLocker
  | [] => l
  | op :: ops => (l.applyOp op).applyOps ops

/-- ReplicaInfo as far as the CreateReplicaJob result needs it: one
replica of a chunk of one database on one worker. -/
structure ReplicaInfo where
  database : String
  worker : String
  chunk : Nat
deriving DecidableEq, Repr

/-- CreateReplicaJob.h CreateReplicaJobResult: the replicas created, plus
the chunk to database to worker map flattened to entries. -/
structure CreateReplicaJobResult where
  replicas : List ReplicaInfo
  chunks : List (Nat × String × String × ReplicaInfo)
deriving DecidableEq, Repr

/-- CreateReplicaJob.cc: the job reduced to the fields the claims are
about. -/
structure CreateReplicaJob where
  databaseFamily : String
  chunk : Nat
  sourceWorker : String
  destinationWorker : String
  state : JobState
  extendedState : JobExtendedState
  replicaData : CreateReplicaJobResult
deriving DecidableEq, Repr

/-- CreateReplicaJob.cc getReplicaData (lines 120-128): returns the
result object when the job is FINISHED and throws a logic error
otherwise. -/
def CreateReplicaJob.getReplicaData (j : CreateReplicaJob) :
    Except String CreateReplicaJobResult :=
  if j.state = .FINISHED then .ok j.replicaData
  else .error "CreateReplicaJob::getReplicaData  the method cannot be called while the job has not finished"

/-- CreateReplicaJob.cc onRequestFinish stats update (lines 316-319): a
child that finished with extended state SUCCESS contributes its response
data to the result (both to replicas and to the chunk map); any other
child contributes nothing, so successful partial results survive an
overall FAILED outcome. -/
def CreateReplicaJob.updateStats (j : CreateReplicaJob)
    (requestExtendedState : RequestExtendedState) (requestDatabase : String)
    (responseData : ReplicaInfo) : CreateReplicaJob :=
  if requestExtendedState = .SUCCESS then
    { j with replicaData :=
        { replicas := j.replicaData.replicas ++ [responseData]
          chunks := j.replicaData.chunks ++
            [(j.chunk, requestDatabase, j.destinationWorker, responseData)] } }
  else j

/-- Concrete busy connector (one request in flight) for the C3 witness. -/
def c3busy : MessengerConnector :=
  { state := .STATE_COMMUNICATING, requests := [{ id := "b", success := false }]
    currentRequest := some { id := "a", success := false }
    timerArmed := false, notified := [] }

/-- Concrete idle connector (nothing in flight) for the C3 witness. -/
def c3idle : MessengerConnector :=
  { state := .STATE_COMMUNICATING, requests := [{ id := "b", success := false }]
    currentRequest := none, timerArmed := false, notified := [] }

/-- Concrete connector (one request in flight, one queued) for the C4
witness. -/
def c4sample : MessengerConnector :=
  { state := .STATE_COMMUNICATING, requests := [{ id := "q", success := false }]
    currentRequest := some { id := "p", success := false }
    timerArmed := false, notified := [] }

/-- Concrete processor (one replication request on (db1, 7) queued) for
the C5 witness. -/
def c5processor : WorkerProcessor :=
  { newRequests := [{ kind := .replication, id := "req1", priority := 0
                      database := "db1", chunk := 7, status := .STATUS_NONE
                      extendedStatus := .NONE, startTime := 0, finishTime := 0 }]
    inProgressRequests := []
    finishedRequests := [] }

/-- Concrete FAILED response for the C6 witness. -/
def c6messageFailed : DeleteResponse :=
  { status := .FAILED, statusExt := .NONE, duplicateRequestId := "" }

/-- Concrete connector (request with id x queued, nothing in flight) for
the C7 witness. -/
def c7sample : MessengerConnector :=
  { state := .STATE_COMMUNICATING, requests := [{ id := "x", success := false }]
    currentRequest := none, timerArmed := false, notified := [] }

/-- Chunk 5 of database family F, for the C8 witness (spec scenario A). -/
def chunk5 : Chunk := { databaseFamily := "F", number := 5 }

/-- Concrete finished-but-FAILED job holding one partial result, for the
C9 witness. -/
def c9job : CreateReplicaJob :=
  { databaseFamily := "F", chunk := 7, sourceWorker := "w1"
    destinationWorker := "w2", state := .FINISHED, extendedState := .FAILED
    replicaData :=
      { replicas := [{ database := "d1", worker := "w2", chunk := 7 }]
        chunks := [(7, "d1", "w2", { database := "d1", worker := "w2", chunk := 7 })] } }

/-- Concrete in-progress worker request for the C10 witness. -/
def c10request : WorkerRequest :=
  { kind := .replication, id := "wr1", priority := 0, database := "d1"
    chunk := 3, status := .STATUS_IN_PROGRESS, extendedStatus := .NONE
    startTime := 5, finishTime := 0 }

/-! Theorems. Helper lemmas come first; each claim then gets exactly one
theorem (plus, where the statement carries hypotheses, a witness
instantiating it at concrete inputs). -/

theorem Request.applyEvent_of_finished (r : Request) (e : RequestEvent)
    (h : r.state = .FINISHED) : r.applyEvent e = r := by
  cases e <;>
    simp [Request.applyEvent, Request.finish, Request.cancel, Request.expired, h]

theorem Request.applyEvents_of_finished (r : Request) (es : List RequestEvent)
    (h : r.state = .FINISHED) : r.applyEvents es = r := by
  induction es with
  | nil => rfl
  | cons e es ih =>
    show (r.applyEvent e).applyEvents es = r
    rw [Request.applyEvent_of_finished r e h]
    exact ih

theorem Request.applyEvent_of_not_finished (r : Request) (e : RequestEvent)
    (h : r.state ≠ .FINISHED) :
    (r.applyEvent e).state = .FINISHED ∧
    (r.applyEvent e).notifyCount = r.notifyCount + 1 := by
  cases e <;>
    simp [Request.applyEvent, Request.finish, Request.cancel, Request.expired, h]

theorem Job.applyEvent_of_finished_job (j : Job) (e : JobEvent)
    (h : j.state = .FINISHED) : j.applyEvent e = j := by
  cases e <;>
    simp [Job.applyEvent, Job.finish, Job.cancel, Job.expired, h]

theorem Job.applyEvents_of_finished_job (j : Job) (es : List JobEvent)
    (h : j.state = .FINISHED) : j.applyEvents es = j := by
  induction es with
  | nil => rfl
  | cons e es ih =>
    show (j.applyEvent e).applyEvents es = j
    rw [Job.applyEvent_of_finished_job j e h]
    exact ih

theorem Job.applyEvent_of_not_finished_job (j : Job) (e : JobEvent)
    (h : j.state ≠ .FINISHED) :
    (j.applyEvent e).state = .FINISHED ∧
    (j.applyEvent e).notifyCount = j.notifyCount + 1 := by
  cases e <;>
    simp [Job.applyEvent, Job.finish, Job.cancel, Job.expired, h]
  split <;> simp

/-- Claim C1: for every Request and every Job already in state FINISHED, a
subsequent finish() or cancel() is a no-op (state, extended state and the
notification count are all unchanged), and from a not-yet-finished
instance any nonempty serialized race of terminal-triggering events
(finish, cancel, timer expiration) invokes the completion notification
exactly once. -/
theorem C1_terminal_idempotence :
    (∀ (r : Request) (extendedState : RequestExtendedState),
       r.state = .FINISHED → r.finish extendedState = r ∧ r.cancel = r)
  ∧ (∀ (r : Request) (es : List RequestEvent), r.state ≠ .FINISHED →
       r.notifyCount = 0 → es ≠ [] → (r.applyEvents es).notifyCount = 1)
  ∧ (∀ (j : Job) (newExtendedState : JobExtendedState),
       j.state = .FINISHED → j.finish newExtendedState = j ∧ j.cancel = j)
  ∧ (∀ (j : Job) (es : List JobEvent), j.state ≠ .FINISHED →
       j.notifyCount = 0 → es ≠ [] → (j.applyEvents es).notifyCount = 1) := by
  refine ⟨?_, ?_, ?_, ?_⟩
  · intro r extendedState h
    exact ⟨by simp [Request.finish, h], by simp [Request.cancel, h]⟩
  · intro r es hst hcount hne
    cases es with
    | nil => exact absurd rfl hne
    | cons e es =>
      have h1 := Request.applyEvent_of_not_finished r e hst
      show ((r.applyEvent e).applyEvents es).notifyCount = 1
      rw [Request.applyEvents_of_finished _ es h1.1, h1.2, hcount]
  · intro j newExtendedState h
    exact ⟨by simp [Job.finish, h], by simp [Job.cancel, h]⟩
  · intro j es hst hcount hne
    cases es with
    | nil => exact absurd rfl hne
    | cons e es =>
      have h1 := Job.applyEvent_of_not_finished_job j e hst
      show ((j.applyEvent e).applyEvents es).notifyCount = 1
      rw [Job.applyEvents_of_finished_job _ es h1.1, h1.2, hcount]

/-- Instantiation of C1 at concrete inputs: a finished request survives a
late finish() unchanged, and a racing cancel / expiration / finish triple
on a running request notifies exactly once; same for a Job. -/
theorem C1_terminal_idempotence_witness :
    Request.finish ⟨.FINISHED, .SUCCESS, 1⟩ .CLIENT_ERROR = ⟨.FINISHED, .SUCCESS, 1⟩
  ∧ (Request.applyEvents ⟨.IN_PROGRESS, .NONE, 0⟩
       [.cancelEv, .expiredEv, .finishEv .SUCCESS]).notifyCount = 1
  ∧ Job.cancel ⟨.FINISHED, .SUCCESS, 1, 0⟩ = ⟨.FINISHED, .SUCCESS, 1, 0⟩
  ∧ (Job.applyEvents ⟨.IN_PROGRESS, .NONE, 0, 0⟩
       [.expiredEv, .cancelEv]).notifyCount = 1 :=
  ⟨(C1_terminal_idempotence.1 ⟨.FINISHED, .SUCCESS, 1⟩ .CLIENT_ERROR rfl).1,
   C1_terminal_idempotence.2.1 ⟨.IN_PROGRESS, .NONE, 0⟩ _ (by decide) rfl (by decide),
   (C1_terminal_idempotence.2.2.1 ⟨.FINISHED, .SUCCESS, 1, 0⟩ .NONE rfl).2,
   C1_terminal_idempotence.2.2.2 ⟨.IN_PROGRESS, .NONE, 0, 0⟩ _ (by decide) rfl (by decide)⟩

theorem countFinishedSuccess_of_all_finished (requests : List ChildRequest)
    (hall : ∀ p ∈ requests, p.state = .FINISHED) :
    countFinishedSuccess requests =
      (requests.length,
       (requests.filter (fun p => p.extendedState == .SUCCESS)).length) := by
  induction requests with
  | nil => rfl
  | cons p rest ih =>
    have hp : p.state = .FINISHED := hall p (by simp)
    have hrest : ∀ q ∈ rest, q.state = .FINISHED := fun q hq => hall q (by simp [hq])
    by_cases hs : p.extendedState = .SUCCESS
    · simp [countFinishedSuccess, hp, hs, ih hrest, List.filter_cons]
    · simp [countFinishedSuccess, hp, hs, ih hrest, List.filter_cons]

/-- Claim C2: for a job whose k launched child requests have all finished,
with s of them in extended state SUCCESS, the fan-in decision of
onRequestFinish yields numFinished = k and terminates the job with SUCCESS
exactly when s = k and with FAILED otherwise. -/
theorem C2_fan_in_correctness (requests : List ChildRequest)
    (hall : ∀ p ∈ requests, p.state = .FINISHED) :
    (countRequestStates requests).2.1 = requests.length
  ∧ ((requests.filter (fun p => p.extendedState == .SUCCESS)).length
       = requests.length →
     onRequestFinishOutcome requests = some .SUCCESS)
  ∧ ((requests.filter (fun p => p.extendedState == .SUCCESS)).length
       ≠ requests.length →
     onRequestFinishOutcome requests = some .FAILED) := by
  have h := countFinishedSuccess_of_all_finished requests hall
  refine ⟨by simp [countRequestStates, h], ?_, ?_⟩
  · intro hs
    unfold onRequestFinishOutcome countRequestStates
    rw [h]
    simp only [hs, if_pos rfl]
    simp
  · intro hs
    unfold onRequestFinishOutcome countRequestStates
    rw [h]
    simp only [hs, if_pos rfl, if_neg hs]
    simp

/-- Instantiation of C2 at k = 2, s = 1 (outcome FAILED with numFinished
= 2) and at k = 2, s = 2 (outcome SUCCESS). -/
theorem C2_fan_in_correctness_witness :
    (countRequestStates [⟨.FINISHED, .SUCCESS⟩, ⟨.FINISHED, .SERVER_ERROR⟩]).2.1 = 2
  ∧ onRequestFinishOutcome [⟨.FINISHED, .SUCCESS⟩, ⟨.FINISHED, .SERVER_ERROR⟩]
      = some .FAILED
  ∧ onRequestFinishOutcome [⟨.FINISHED, .SUCCESS⟩, ⟨.FINISHED, .SUCCESS⟩]
      = some .SUCCESS :=
  ⟨(C2_fan_in_correctness [⟨.FINISHED, .SUCCESS⟩, ⟨.FINISHED, .SERVER_ERROR⟩]
      (by decide)).1,
   (C2_fan_in_correctness [⟨.FINISHED, .SUCCESS⟩, ⟨.FINISHED, .SERVER_ERROR⟩]
      (by decide)).2.2 (by decide),
   (C2_fan_in_correctness [⟨.FINISHED, .SUCCESS⟩, ⟨.FINISHED, .SUCCESS⟩]
      (by decide)).2.1 (by decide)⟩

/-- Claim C3: per MessengerConnector, sendRequest never starts a new
transmission while a current request exists (at most one request is in
flight, the single _currentRequest slot), and when it does start one it
always takes the request from the front of the FIFO queue, so queued
requests are serviced strictly in submission order. -/
theorem C3_single_flight_fifo (c : MessengerConnector) :
    (c.currentRequest.isSome → c.sendRequest = c)
  ∧ (∀ (r : MessageWrapper) (rest : List MessageWrapper),
       c.currentRequest = none → c.requests = r :: rest →
       c.sendRequest = { c with currentRequest := some r, requests := rest }) := by
  constructor
  · intro h
    simp [MessengerConnector.sendRequest, h]
  · intro r rest hcur hreq
    simp [MessengerConnector.sendRequest, hcur, hreq]

/-- Instantiation of C3 at concrete connectors: a busy connector is left
untouched by sendRequest; an idle one transmits the front of its queue. -/
theorem C3_single_flight_fifo_witness :
    MessengerConnector.sendRequest c3busy = c3busy
  ∧ MessengerConnector.sendRequest c3idle =
      { c3idle with currentRequest := some { id := "b", success := false }
                    requests := [] } :=
  ⟨(C3_single_flight_fifo c3busy).1 (by decide),
   (C3_single_flight_fifo c3idle).2 { id := "b", success := false } []
     (by decide) (by decide)⟩

theorem MessengerConnector.resolve_requests (c : MessengerConnector) :
    (c.resolve).requests = c.requests := by
  unfold MessengerConnector.resolve
  split <;> rfl

theorem MessengerConnector.resolve_currentRequest (c : MessengerConnector) :
    (c.resolve).currentRequest = c.currentRequest := by
  unfold MessengerConnector.resolve
  split <;> rfl

theorem MessengerConnector.resolve_notified (c : MessengerConnector) :
    (c.resolve).notified = c.notified := by
  unfold MessengerConnector.resolve
  split <;> rfl

theorem MessengerConnector.restart_requests (c : MessengerConnector) :
    (c.restart).requests = c.requests := by
  unfold MessengerConnector.restart
  split <;> rw [MessengerConnector.resolve_requests]

theorem MessengerConnector.restart_currentRequest (c : MessengerConnector) :
    (c.restart).currentRequest = c.currentRequest := by
  unfold MessengerConnector.restart
  split <;> rw [MessengerConnector.resolve_currentRequest]

theorem MessengerConnector.restart_notified (c : MessengerConnector) :
    (c.restart).notified = c.notified := by
  unfold MessengerConnector.restart
  split <;> rw [MessengerConnector.resolve_notified]

/-- Refutation of claim C4 as stated: at the receive stage a socket error
does not push the in-flight request back to the front of the queue.
Concretely, with request r1 in flight and an empty queue, a receive error
leaves the queue empty (so r1 is not at its front to be retried first);
r1 is instead removed and its owner is notified of the failure. -/
theorem C4_counterexample :
    (MessengerConnector.responseReceived c4connector .fail false).requests = []
  ∧ (MessengerConnector.responseReceived c4connector .fail false).requests.head?
      ≠ some { id := "r1", success := false }
  ∧ (MessengerConnector.responseReceived c4connector .fail false).notified
      = [("r1", false)] := by
  refine ⟨by decide, by decide, by decide⟩

/-- Claim C4 (amended): any socket error triggers the restart path and the
pending queue is preserved; a resolve or connect failure arms the
fixed-backoff retry timer; a send failure pushes the in-flight request
back to the front of the queue so it is retried first; a receive failure
restarts with the queue preserved, but the in-flight request is removed
and its owner is notified of the failure instead of being retried. -/
theorem C4_error_restart_behaviour (c : MessengerConnector) (r : MessageWrapper)
    (hcur : c.currentRequest = some r) :
    c.requestSent .fail =
      MessengerConnector.restart
        { c with requests := r :: c.requests, currentRequest := none }
  ∧ (c.requestSent .fail).requests = r :: c.requests
  ∧ c.responseReceived .fail false =
      MessengerConnector.restart
        { c with currentRequest := none
                 notified := c.notified ++ [(r.id, r.success)] }
  ∧ (c.responseReceived .fail false).requests = c.requests
  ∧ (c.responseReceived .fail false).currentRequest = none
  ∧ (c.responseReceived .fail false).notified = c.notified ++ [(r.id, r.success)]
  ∧ (c.resolved .fail).requests = c.requests
  ∧ (c.resolved .fail).timerArmed = true
  ∧ (c.connected .fail).requests = c.requests
  ∧ (c.connected .fail).timerArmed = true
  ∧ (c.restart).requests = c.requests := by
  have hsend : c.requestSent .fail =
      MessengerConnector.restart
        { c with requests := r :: c.requests, currentRequest := none } := by
    simp [MessengerConnector.requestSent, hcur]
  have hrecv : c.responseReceived .fail false =
      MessengerConnector.restart
        { c with currentRequest := none
                 notified := c.notified ++ [(r.id, r.success)] } := by
    simp [MessengerConnector.responseReceived, hcur]
  refine ⟨hsend, ?_, hrecv, ?_, ?_, ?_, ?_, ?_, ?_, ?_, ?_⟩
  · rw [hsend, MessengerConnector.restart_requests]
  · rw [hrecv, MessengerConnector.restart_requests]
  · rw [hrecv, MessengerConnector.restart_currentRequest]
  · rw [hrecv, MessengerConnector.restart_notified]
  · simp [MessengerConnector.resolved, MessengerConnector.waitBeforeRestart]
  · simp [MessengerConnector.resolved, MessengerConnector.waitBeforeRestart]
  · simp [MessengerConnector.connected, MessengerConnector.waitBeforeRestart]
  · simp [MessengerConnector.connected, MessengerConnector.waitBeforeRestart]
  · exact MessengerConnector.restart_requests c

/-- Instantiation of C4 (amended) at a concrete connector with request p
in flight and request q queued: a send error requeues p in front of q; a
receive error preserves the queue as [q] and notifies p. -/
theorem C4_error_restart_behaviour_witness :
    (MessengerConnector.requestSent c4sample .fail).requests =
      [{ id := "p", success := false }, { id := "q", success := false }]
  ∧ (MessengerConnector.responseReceived c4sample .fail false).requests =
      [{ id := "q", success := false }]
  ∧ (MessengerConnector.responseReceived c4sample .fail false).notified =
      [("p", false)] :=
  ⟨(C4_error_restart_behaviour c4sample { id := "p", success := false } rfl).2.1,
   (C4_error_restart_behaviour c4sample { id := "p", success := false } rfl).2.2.2.1,
   (C4_error_restart_behaviour c4sample { id := "p", success := false } rfl).2.2.2.2.2.1⟩

/-- Claim C5: enqueueing a replication or a deletion request whose
(database, chunk) pair collides with a request already in the new or
in-progress queue rejects the new request (the queues are unchanged) with
status BAD and extended status DUPLICATE, carrying the id of the first
colliding request found (new queue scanned before in-progress). -/
theorem C5_duplicate_rejected (w : WorkerProcessor) (id : String) (priority : Int)
    (database : String) (chunk : Nat)
    (hcol : ∃ q ∈ w.newRequests ++ w.inProgressRequests,
              ifDuplicateRequest q database chunk = true) :
    ∃ p, (w.newRequests ++ w.inProgressRequests).find?
           (fun q => ifDuplicateRequest q database chunk) = some p
      ∧ w.enqueueForReplication id priority database chunk =
          (w, { status := .BAD, statusExt := .DUPLICATE
                duplicateRequestId := some p.id })
      ∧ w.enqueueForDeletion id priority database chunk =
          (w, { status := .BAD, statusExt := .DUPLICATE
                duplicateRequestId := some p.id }) := by
  have hsome : ((w.newRequests ++ w.inProgressRequests).find?
      (fun q => ifDuplicateRequest q database chunk)).isSome := by
    rw [List.find?_isSome]
    exact hcol
  obtain ⟨p, hp⟩ := Option.isSome_iff_exists.mp hsome
  exact ⟨p, hp,
    by simp [WorkerProcessor.enqueueForReplication, hp],
    by simp [WorkerProcessor.enqueueForDeletion, hp]⟩

/-- Instantiation of C5: with the replication request req1 on (db1, 7)
queued, enqueueing another request for (db1, 7) is rejected as a
duplicate of req1 and the queues are unchanged. -/
theorem C5_duplicate_rejected_witness :
    WorkerProcessor.enqueueForReplication c5processor "req2" 0 "db1" 7 =
      (c5processor, { status := .BAD, statusExt := .DUPLICATE
                      duplicateRequestId := some "req1" }) := by
  obtain ⟨p, hp, h1, h2⟩ :=
    C5_duplicate_rejected c5processor "req2" 0 "db1" 7 (by decide)
  have hval : (c5processor.newRequests ++ c5processor.inProgressRequests).find?
      (fun q => ifDuplicateRequest q "db1" 7) =
      some { kind := .replication, id := "req1", priority := 0, database := "db1"
             chunk := 7, status := .STATUS_NONE, extendedStatus := .NONE
             startTime := 0, finishTime := 0 } := by decide
  rw [hval] at hp
  have hpe := Option.some.inj hp
  subst hpe
  exact h1.trans (by decide)

/-- Refutation of claim C6 as stated: a successful wire exchange reporting
server status BAD (a status value other than the six the claim
enumerates) does not raise a logic error; the request finishes normally
with extended state SERVER_BAD. -/
theorem C6_counterexample :
    (DeleteRequest.analyze c6request true c6messageBad).2 =
      .finished .SERVER_BAD := by decide

/-- Claim C6 (amended): on a successful wire exchange analyze dispatches
on the server status: SUCCESS finishes with SUCCESS; QUEUED, IN_PROGRESS
and IS_CANCELLING re-arm the poll timer under keepTracking and finish
with the matching SERVER_ state otherwise; FAILED finishes with
SERVER_ERROR and never CLIENT_ERROR (CLIENT_ERROR arises exactly from a
broken client-side exchange, success = false); CANCELLED finishes with
SERVER_CANCELLED; BAD keeps polling when the extended status is DUPLICATE
and both allowDuplicate and keepTracking are set, finishing with
SERVER_BAD otherwise; a status outside the protocol vocabulary (no
constructor here) is the only logic-error case. -/
theorem C6_analyze_dispatch (r : DeleteRequest) (message : DeleteResponse)
    (hip : r.state ≠ .FINISHED) :
    ((r.analyze false message).2 = .finished .CLIENT_ERROR)
  ∧ (message.status = .SUCCESS → (r.analyze true message).2 = .finished .SUCCESS)
  ∧ (message.status = .QUEUED →
       (r.analyze true message).2 =
         if r.keepTracking then .wait else .finished .SERVER_QUEUED)
  ∧ (message.status = .IN_PROGRESS →
       (r.analyze true message).2 =
         if r.keepTracking then .wait else .finished .SERVER_IN_PROGRESS)
  ∧ (message.status = .IS_CANCELLING →
       (r.analyze true message).2 =
         if r.keepTracking then .wait else .finished .SERVER_IS_CANCELLING)
  ∧ (message.status = .FAILED →
       (r.analyze true message).2 = .finished .SERVER_ERROR)
  ∧ (message.status = .CANCELLED →
       (r.analyze true message).2 = .finished .SERVER_CANCELLED)
  ∧ (message.status = .BAD →
       (r.analyze true message).2 =
         if message.statusExt = .DUPLICATE ∧ r.allowDuplicate = true
            ∧ r.keepTracking = true
         then .wait else .finished .SERVER_BAD)
  ∧ ((r.analyze true message).2 ≠ .finished .CLIENT_ERROR) := by
  refine ⟨?_, ?_, ?_, ?_, ?_, ?_, ?_, ?_, ?_⟩
  · simp [DeleteRequest.analyze, hip]
  · intro h
    simp [DeleteRequest.analyze, hip, h]
  · intro h
    simp [DeleteRequest.analyze, hip, h]
    split <;> rfl
  · intro h
    simp [DeleteRequest.analyze, hip, h]
    split <;> rfl
  · intro h
    simp [DeleteRequest.analyze, hip, h]
    split <;> rfl
  · intro h
    simp [DeleteRequest.analyze, hip, h]
  · intro h
    simp [DeleteRequest.analyze, hip, h]
  · intro h
    by_cases hdup : message.statusExt = .DUPLICATE
    · by_cases hflags : r.allowDuplicate = true ∧ r.keepTracking = true
      · simp [DeleteRequest.analyze, hip, h, hdup, hflags.1, hflags.2]
      · rw [if_neg (fun hc => hflags ⟨hc.2.1, hc.2.2⟩)]
        rcases Decidable.not_and_iff_or_not.mp hflags with hA | hK
        · simp [DeleteRequest.analyze, hip, h, hdup,
                Bool.not_eq_true _ ▸ hA]
        · simp [DeleteRequest.analyze, hip, h, hdup,
                Bool.not_eq_true _ ▸ hK]
    · simp [DeleteRequest.analyze, hip, h, hdup]
  · unfold DeleteRequest.analyze
    rw [if_neg hip]
    cases hst : message.status <;> simp <;> (repeat' split) <;> simp_all

/-- Instantiation of C6 (amended) at a concrete in-progress request: a
FAILED server status finishes with SERVER_ERROR (not CLIENT_ERROR), and a
broken exchange (success = false) finishes with CLIENT_ERROR. -/
theorem C6_analyze_dispatch_witness :
    (DeleteRequest.analyze c6request true c6messageFailed).2 =
      .finished .SERVER_ERROR
  ∧ (DeleteRequest.analyze c6request false c6messageFailed).2 =
      .finished .CLIENT_ERROR :=
  ⟨(C6_analyze_dispatch c6request c6messageFailed (by decide)).2.2.2.2.2.1 rfl,
   (C6_analyze_dispatch c6request c6messageFailed (by decide)).1⟩

/-- Refutation of claim C7 as stated: sending a wrapper whose id equals
the id of the request currently in flight does not fail with a logic
error; the duplicate-id check (find) only scans the pending queue, so the
second wrapper under the in-flight id a is enqueued. -/
theorem C7_counterexample :
    MessengerConnector.sendImpl c7connector { id := "a", success := false } =
      .ok { c7connector with requests := [{ id := "a", success := false }] } := by
  rfl

/-- Claim C7 (amended): send fails with a logic error exactly when the id
is already registered among the queued (not yet transmitted) requests;
the id of the request currently in flight is not consulted, so a second
wrapper under the in-flight id is accepted and enqueued. -/
theorem C7_queue_only_duplicate_check (c : MessengerConnector)
    (ptr : MessageWrapper) :
    (c.sendImpl ptr).isOk = false ↔ ∃ q ∈ c.requests, q.id = ptr.id := by
  have hfind : (c.find ptr.id).isSome ↔ ∃ q ∈ c.requests, q.id = ptr.id := by
    simp [MessengerConnector.find, List.find?_isSome]
  by_cases h : (c.find ptr.id).isSome
  · constructor
    · intro _
      exact hfind.mp h
    · intro _
      simp [MessengerConnector.sendImpl, h, Except.isOk, Except.toBool]
  · constructor
    · intro hok
      exfalso
      unfold MessengerConnector.sendImpl at hok
      rw [if_neg (by simp [h])] at hok
      cases hst : c.state <;>
        simp [hst, Except.isOk, Except.toBool] at hok
    · intro hq
      exact absurd (hfind.mpr hq) h

/-- Instantiation of C7 (amended): with request x queued, sending another
wrapper under id x fails. -/
theorem C7_queue_only_duplicate_check_witness :
    (MessengerConnector.sendImpl c7sample { id := "x", success := true }).isOk
      = false :=
  (C7_queue_only_duplicate_check c7sample { id := "x", success := true }).mpr
    ⟨{ id := "x", success := false }, by decide, rfl⟩

theorem List.find?_of_append_left {α : Type} (xs ys : List α) (p : α → Bool)
    (a : α) (h : xs.find? p = some a) : (xs ++ ys).find? p = some a := by
  rw [List.find?_append, h]
  rfl

theorem List.find?_of_append_right {α : Type} (xs ys : List α) (p : α → Bool)
    (h : xs.find? p = none) : (xs ++ ys).find? p = ys.find? p := by
  rw [List.find?_append, h]
  rfl

theorem List.find?_filter_of_kept {α : Type} (xs : List α) (p q : α → Bool)
    (a : α) (h : xs.find? q = some a) (hkeep : p a = true) :
    (xs.filter p).find? q = some a := by
  induction xs with
  | nil => simp [List.find?] at h
  | cons x xs ih =>
    by_cases hq : q x
    · rw [List.find?_cons_of_pos _ hq] at h
      have hxa : x = a := Option.some.inj h
      subst hxa
      rw [List.filter_cons_of_pos hkeep, List.find?_cons_of_pos _ hq]
    · rw [List.find?_cons_of_neg _ hq] at h
      by_cases hp : p x
      · rw [List.filter_cons_of_pos hp, List.find?_cons_of_neg _ hq]
        exact ih h
      · rw [List.filter_cons_of_neg hp]
        exact ih h

theorem ChunkLocker.findOwner_entry (l : ChunkLocker) (c : Chunk) (o : String)
    (h : l.findOwner c = some o) :
    l.chunk2owner.find? (fun kv => kv.1 == c) = some (c, o) := by
  obtain ⟨kv, hkv, hv⟩ := Option.map_eq_some'.mp h
  have hkey := List.find?_some hkv
  have hc : kv.1 = c := beq_iff_eq.mp hkey
  rw [hkv]
  rw [show kv = (c, o) from Prod.ext hc hv]

theorem ChunkLocker.findOwner_applyOp (l : ChunkLocker) (c : Chunk)
    (o1 : String) (op : LockerOp)
    (h : l.findOwner c = some o1)
    (hop1 : op ≠ .releaseChunkOp c)
    (hop2 : ∀ o, op = .releaseOwnerOp o → o ≠ o1) :
    (l.applyOp op).findOwner c = some o1 := by
  have hentry := ChunkLocker.findOwner_entry l c o1 h
  cases op with
  | lockOp c2 o2 =>
    simp only [ChunkLocker.applyOp]
    unfold ChunkLocker.lock
    by_cases ho2 : o2 = ""
    · rw [if_pos ho2]
      exact h
    · rw [if_neg ho2]
      cases hfo : l.findOwner c2 with
      | some current =>
        exact h
      | none =>
        show ChunkLocker.findOwner ⟨l.chunk2owner ++ [(c2, o2)]⟩ c = some o1
        unfold ChunkLocker.findOwner
        rw [List.find?_of_append_left _ _ _ _ hentry]
        rfl
  | releaseChunkOp c2 =>
    have hcc : c2 ≠ c := fun hcc => hop1 (by rw [hcc])
    simp only [ChunkLocker.applyOp, ChunkLocker.release]
    show Option.map (fun kv => kv.2)
        (List.find? (fun kv => kv.1 == c)
          (List.filter (fun kv => kv.1 != c2) l.chunk2owner)) = some o1
    rw [List.find?_filter_of_kept l.chunk2owner (fun kv => kv.1 != c2)
          (fun kv => kv.1 == c) (c, o1) hentry (by simp [Ne.symm hcc])]
    rfl
  | releaseOwnerOp o2 =>
    have ho21 : o2 ≠ o1 := hop2 o2 rfl
    simp only [ChunkLocker.applyOp]
    unfold ChunkLocker.releaseOwner
    by_cases ho2 : o2 = ""
    · rw [if_pos ho2]
      exact h
    · rw [if_neg ho2]
      show Option.map (fun kv => kv.2)
          (List.find? (fun kv => kv.1 == c)
            (List.filter (fun kv => kv.2 != o2) l.chunk2owner)) = some o1
      rw [List.find?_filter_of_kept l.chunk2owner (fun kv => kv.2 != o2)
            (fun kv => kv.1 == c) (c, o1) hentry (by simp [Ne.symm ho21])]
      rfl

theorem ChunkLocker.findOwner_applyOps (l : ChunkLocker) (c : Chunk)
    (o1 : String) (ops : List LockerOp)
    (h : l.findOwner c = some o1)
    (hops : ∀ op ∈ ops, op ≠ .releaseChunkOp c
              ∧ ∀ o, op = .releaseOwnerOp o → o ≠ o1) :
    (l.applyOps ops).findOwner c = some o1 := by
  induction ops generalizing l with
  | nil => exact h
  | cons op ops ih =>
    have h1 := ChunkLocker.findOwner_applyOp l c o1 op h
      (hops op (by simp)).1 (hops op (by simp)).2
    exact ih (l.applyOp op) h1 (fun op2 hm => hops op2 (by simp [hm]))

/-- Claim C8: once lock(c, o1) has returned true, lock(c, o2) for any
different owner o2 returns false (leaving the table unchanged) for as
long as the subsequent operations contain no release(c) and no
release(o1); re-locking by o1 itself keeps returning true (idempotent
re-lock); and lock with an empty owner string fails with an
invalid_argument-class error. -/
theorem C8_chunk_locker_exclusion (l l2 : ChunkLocker) (c : Chunk)
    (o1 o2 : String) (ops : List LockerOp)
    (h1 : o1 ≠ "") (h2 : o2 ≠ "") (ho : o1 ≠ o2)
    (hlock : l.lock c o1 = .ok (l2, true))
    (hops : ∀ op ∈ ops, op ≠ .releaseChunkOp c
              ∧ ∀ o, op = .releaseOwnerOp o → o ≠ o1) :
    (l2.applyOps ops).lock c o2 = .ok (l2.applyOps ops, false)
  ∧ (l2.applyOps ops).lock c o1 = .ok (l2.applyOps ops, true)
  ∧ (∀ ch : Chunk,
       l.lock ch "" = .error "ChunkLocker::lock  the owner identifier is empty") := by
  have hown : l2.findOwner c = some o1 := by
    unfold ChunkLocker.lock at hlock
    rw [if_neg h1] at hlock
    cases hfo : l.findOwner c with
    | some current =>
      rw [hfo] at hlock
      have hpair := Except.ok.inj hlock
      have hl2 : l = l2 := congrArg Prod.fst hpair
      have hcur : (current == o1) = true := congrArg Prod.snd hpair
      rw [← hl2, hfo, beq_iff_eq.mp hcur]
    | none =>
      rw [hfo] at hlock
      have hpair := Except.ok.inj hlock
      have hl2 : (⟨l.chunk2owner ++ [(c, o1)]⟩ : ChunkLocker) = l2 :=
        congrArg Prod.fst hpair
      rw [← hl2]
      unfold ChunkLocker.findOwner at hfo ⊢
      have hnone : l.chunk2owner.find? (fun kv => kv.1 == c) = none :=
        Option.map_eq_none'.mp hfo
      show ((l.chunk2owner ++ [(c, o1)]).find?
        (fun kv => kv.1 == c)).map (fun kv => kv.2) = some o1
      rw [List.find?_of_append_right _ _ _ hnone]
      simp [List.find?]
  have hfin := ChunkLocker.findOwner_applyOps l2 c o1 ops hown hops
  refine ⟨?_, ?_, ?_⟩
  · unfold ChunkLocker.lock
    rw [if_neg h2, hfin]
    show Except.ok (l2.applyOps ops, (o1 == o2)) =
      Except.ok (l2.applyOps ops, false)
    rw [beq_eq_false_iff_ne.mpr ho]
  · unfold ChunkLocker.lock
    rw [if_neg h1, hfin]
    show Except.ok (l2.applyOps ops, (o1 == o1)) =
      Except.ok (l2.applyOps ops, true)
    rw [beq_self_eq_true o1]
  · intro ch
    unfold ChunkLocker.lock
    rw [if_pos rfl]

/-- Instantiation of C8 at spec scenario A: after owner jobA locks chunk 5
of family F, jobB cannot lock it while jobA can re-lock it, and an empty
owner is rejected. -/
theorem C8_chunk_locker_exclusion_witness :
    ChunkLocker.lock ⟨[(chunk5, "jobA")]⟩ chunk5 "jobB" =
      .ok (⟨[(chunk5, "jobA")]⟩, false)
  ∧ ChunkLocker.lock ⟨[(chunk5, "jobA")]⟩ chunk5 "jobA" =
      .ok (⟨[(chunk5, "jobA")]⟩, true)
  ∧ ChunkLocker.lock ⟨[]⟩ chunk5 "" =
      .error "ChunkLocker::lock  the owner identifier is empty" := by
  have h := C8_chunk_locker_exclusion ⟨[]⟩ ⟨[(chunk5, "jobA")]⟩ chunk5
    "jobA" "jobB" [] (by decide) (by decide) (by decide) (by rfl)
    (by simp)
  exact ⟨h.1, h.2.1, h.2.2 chunk5⟩

/-- Claim C9: querying the structured result object before the job has
reached FINISHED throws a logic error; once FINISHED the accumulated
result is returned without error, also when the overall extended state is
FAILED (so partial results from children that succeeded survive). -/
theorem C9_result_gated_on_finished (j : CreateReplicaJob) :
    (j.state = .FINISHED → j.getReplicaData = .ok j.replicaData)
  ∧ (j.state = .FINISHED → j.extendedState = .FAILED →
       j.getReplicaData = .ok j.replicaData)
  ∧ (j.state ≠ .FINISHED →
       j.getReplicaData = .error "CreateReplicaJob::getReplicaData  the method cannot be called while the job has not finished") := by
  refine ⟨?_, ?_, ?_⟩
  · intro h
    simp [CreateReplicaJob.getReplicaData, h]
  · intro h _
    simp [CreateReplicaJob.getReplicaData, h]
  · intro h
    simp [CreateReplicaJob.getReplicaData, h]

/-- Instantiation of C9 at a FINISHED job with extended state FAILED and
one accumulated partial result, and at the same job before it finished. -/
theorem C9_result_gated_on_finished_witness :
    CreateReplicaJob.getReplicaData c9job = .ok c9job.replicaData
  ∧ CreateReplicaJob.getReplicaData { c9job with state := .IN_PROGRESS } =
      .error "CreateReplicaJob::getReplicaData  the method cannot be called while the job has not finished" :=
  ⟨(C9_result_gated_on_finished c9job).2.1 rfl rfl,
   (C9_result_gated_on_finished { c9job with state := .IN_PROGRESS }).2.2
     (by decide)⟩

/-- Claim C10: WorkerRequest::cancel is total (never throws) and maps the
status as follows: STATUS_NONE and STATUS_CANCELLED become
STATUS_CANCELLED (a not-yet-started request is cancelled immediately,
skipping STATUS_IS_CANCELLING); STATUS_IN_PROGRESS and
STATUS_IS_CANCELLING become STATUS_IS_CANCELLING (cooperative
cancellation); STATUS_SUCCEEDED and STATUS_FAILED leave the request
entirely unchanged (a silent no-op). -/
theorem C10_worker_cancel_mapping (r : WorkerRequest) (now : Nat) :
    ((r.status = .STATUS_NONE ∨ r.status = .STATUS_CANCELLED) →
       (r.cancel now).status = .STATUS_CANCELLED)
  ∧ ((r.status = .STATUS_IN_PROGRESS ∨ r.status = .STATUS_IS_CANCELLING) →
       (r.cancel now).status = .STATUS_IS_CANCELLING)
  ∧ ((r.status = .STATUS_SUCCEEDED ∨ r.status = .STATUS_FAILED) →
       r.cancel now = r) := by
  refine ⟨?_, ?_, ?_⟩
  · rintro (h | h) <;>
      simp [WorkerRequest.cancel, WorkerRequest.setStatus, h]
  · rintro (h | h) <;>
      simp [WorkerRequest.cancel, WorkerRequest.setStatus, h]
  · rintro (h | h) <;>
      simp [WorkerRequest.cancel, h]

/-- Instantiation of C10: cancelling an in-progress request moves it to
STATUS_IS_CANCELLING; cancelling it after success leaves it untouched. -/
theorem C10_worker_cancel_mapping_witness :
    (WorkerRequest.cancel c10request 9).status = .STATUS_IS_CANCELLING
  ∧ WorkerRequest.cancel { c10request with status := .STATUS_SUCCEEDED } 9 =
      { c10request with status := .STATUS_SUCCEEDED } :=
  ⟨(C10_worker_cancel_mapping c10request 9).2.1 (Or.inl rfl),
   (C10_worker_cancel_mapping { c10request with status := .STATUS_SUCCEEDED } 9).2.2
     (Or.inl rfl)⟩

end Replica
